import Mathlib

/-!
Shallow embedding of the `health-notion` morning script
(`src/morning_script.py`, `src/utils/func.py`).

The script ingests a JSON payload of sleep and step measurements,
cleans it into a daily summary, fetches a template page block tree
recursively from the Notion API, and creates/updates pages.

Conventions of the embedding:
* Python exceptions are modelled by `Except PyErr`; a `try/except`
  handler that logs and returns a default is modelled by matching on
  the `Except` value and returning the default on `.error`.
* Python `float` arithmetic on exact decimal inputs is modelled by `Rat`.
* `datetime.now()` is an environment read; the derived value
  `datetime.now() - timedelta(days=1)` is passed as the explicit
  parameter `yesterday`.
* The Notion client is an environment: listings, queries and the create
  call are function parameters.
* String splitting and integer parsing are implemented over the
  character list of the string, so that all definitions reduce in the
  kernel.
-/

/-- Kinds of Python exceptions the script can raise, with their message. -/
inductive PyErr where
  | valueError (msg : String)
  | typeError (msg : String)
  | indexError (msg : String)
  | keyError (msg : String)
  | apiError (msg : String)
  deriving DecidableEq, Repr

deriving instance DecidableEq for Except

/-- Splitting of a character list at every occurrence of `c`
(the semantics of Python `str.split(sep)`: the empty string yields
one empty token, `n` separators yield `n + 1` tokens). -/
def splitCharAux (c : Char) : List Char → List (List Char)
  | [] => [[]]
  | x :: xs =>
    let r := splitCharAux c xs
    if x = c then [] :: r
    else
      match r with
      | [] => [[x]]
      | y :: ys => (x :: y) :: ys

/-- Python `s.split(sep)` for a one-character separator. -/
def splitOnChar (c : Char) (s : String) : List String :=
  (splitCharAux c s.data).map (fun l => String.mk l)

/-- Value of a nonempty all-digit character list, `none` otherwise. -/
def digitsVal : List Char → Option Nat
  | [] => none
  | cs => cs.foldl (fun acc c => match acc with
      | none => none
      | some n => if c.isDigit then some (n * 10 + (c.toNat - 48)) else none)
      (some 0)

/-- Python `int(s)` on a string: optional surrounding whitespace, optional
sign, then decimal digits.  `none` models the `ValueError` that `int`
raises on anything else. -/
def pyParseInt (s : String) : Option Int :=
  let t := (s.data.dropWhile (· = ' ')).reverse.dropWhile (· = ' ') |>.reverse
  match t with
  | '-' :: ds => (digitsVal ds).map (fun n => -(n : Int))
  | '+' :: ds => (digitsVal ds).map (fun n => (n : Int))
  | ds => (digitsVal ds).map (fun n => (n : Int))

/-- A dynamically typed Python value as it flows through
`convert_duration_to_hours`: the variables `hours`, `minutes`, `seconds`
hold either the literal `0`, a token string, or (in the one-token branch,
where the source assigns `seconds = parts`) the whole token list. -/
inductive PyVal where
  | int (n : Int)
  | str (s : String)
  | list (xs : List String)
  deriving DecidableEq, Repr

/-- Python `int(v)` applied to a dynamically typed value:
an `int` passes through, a `str` is parsed, and a `list` raises
`TypeError` (as `int(parts)` does in the source). -/
def pyIntOf : PyVal → Except PyErr Int
  | .int n => .ok n
  | .str s =>
      match pyParseInt s with
      | some n => .ok n
      | none => .error (.valueError ("invalid literal for int : " ++ s))
  | .list _ => .error (.typeError "int argument must be a string, not list")

/-- Embedding of `convert_duration_to_hours` (`func.py` lines 61-90).
Splits on `:`; three tokens are `h:mm:ss`, two are `m:ss`; with one token
the source executes `seconds = parts`, binding the whole token LIST (not
its element) to `seconds`; any other token count raises `ValueError`.
Each part then goes through `int(...)` and the result is
`hours + minutes / 60 + seconds / 3600`. -/
def convert_duration_to_hours (duration_str : String) : Except PyErr Rat := do
  let parts := splitOnChar ':' duration_str
  let (hours, minutes, seconds) ←
    match parts with
    | [h, m, s] => Except.ok ((PyVal.str h, PyVal.str m, PyVal.str s))
    | [m, s] => Except.ok ((PyVal.int 0, PyVal.str m, PyVal.str s))
    | [s] => Except.ok ((PyVal.int 0, PyVal.int 0, PyVal.list [s]))
    | _ => Except.error (PyErr.valueError "Duration format not recognized")
  let hours ← pyIntOf hours
  let minutes ← pyIntOf minutes
  let seconds ← pyIntOf seconds
  return (hours : Rat) + (minutes : Rat) / 60 + (seconds : Rat) / 3600

/-! ## Date and time model

`datetime` values carry year, month, day, hour, minute (the input format
`%d %b %Y at %H:%M` has minute granularity, so seconds are always zero). -/

/-- A Python `datetime` value at minute granularity. -/
structure DateTime where
  year : Int
  month : Nat
  day : Nat
  hour : Nat
  minute : Nat
  deriving DecidableEq, Repr

/-- Gregorian leap-year rule. -/
def isLeapYear (y : Int) : Bool :=
  y % 4 == 0 && (y % 100 != 0 || y % 400 == 0)

/-- Number of days of month `m` in year `y`. -/
def daysInMonth (y : Int) (m : Nat) : Nat :=
  if m = 2 then (if isLeapYear y then 29 else 28)
  else if m = 4 ∨ m = 6 ∨ m = 9 ∨ m = 11 then 30
  else 31

/-- Days since 1970-01-01 of a civil date (standard civil-calendar
conversion), used to subtract datetimes the way `timedelta` does. -/
def daysFromCivil (y : Int) (m d : Nat) : Int :=
  let y' : Int := if m ≤ 2 then y - 1 else y
  let era : Int := (if 0 ≤ y' then y' else y' - 399) / 400
  let yoe : Int := y' - era * 400
  let mp : Int := ((m : Int) + 9) % 12
  let doy : Int := (153 * mp + 2) / 5 + (d : Int) - 1
  let doe : Int := yoe * 365 + yoe / 4 - yoe / 100 + doy
  era * 146097 + doe - 719468

/-- Minutes since the epoch; datetime subtraction and ordering are
computed from this value. -/
def minutesSinceEpoch (t : DateTime) : Int :=
  daysFromCivil t.year t.month t.day * 1440 + (t.hour : Int) * 60 + (t.minute : Int)

/-- The later of two datetimes (pandas `Series.max` pairwise step). -/
def maxDT (a b : DateTime) : DateTime :=
  if minutesSinceEpoch a ≤ minutesSinceEpoch b then b else a

/-- pandas `Series.max` over datetimes: `none` models `NaT` on an empty
series. -/
def listMaxDT (l : List DateTime) : Option DateTime :=
  l.foldl (fun acc d =>
    match acc with
    | none => some d
    | some m => some (maxDT m d)) none

/-- Month number of an English month abbreviation (`%b`). -/
def monthFromAbbrev (s : String) : Option Nat :=
  match s with
  | "Jan" => some 1 | "Feb" => some 2 | "Mar" => some 3 | "Apr" => some 4
  | "May" => some 5 | "Jun" => some 6 | "Jul" => some 7 | "Aug" => some 8
  | "Sep" => some 9 | "Oct" => some 10 | "Nov" => some 11 | "Dec" => some 12
  | _ => none

/-- Strict parser for the input date format `"%d %b %Y at %H:%M"` used by
`pd.to_datetime(..., format=...)` on the `sleep_start_date` /
`sleep_end_date` columns (`func.py` lines 128-134).  Any mismatch raises
`ValueError`, modelled as `.error`. -/
def parse_date_input (s : String) : Except PyErr DateTime :=
  match splitOnChar ' ' s with
  | [d, mon, y, w, hm] =>
    if w = "at" then
      match digitsVal d.data, monthFromAbbrev mon, digitsVal y.data,
            splitOnChar ':' hm with
      | some dv, some mv, some yv, [hh, mm] =>
        (match digitsVal hh.data, digitsVal mm.data with
        | some hv, some minv =>
          if 1 ≤ dv ∧ dv ≤ daysInMonth (yv : Int) mv ∧ hv ≤ 23 ∧ minv ≤ 59 then
            .ok ⟨(yv : Int), mv, dv, hv, minv⟩
          else .error (.valueError ("time data out of range : " ++ s))
        | _, _ => .error (.valueError ("time data does not match format : " ++ s)))
      | _, _, _, _ => .error (.valueError ("time data does not match format : " ++ s))
    else .error (.valueError ("time data does not match format : " ++ s))
  | _ => .error (.valueError ("time data does not match format : " ++ s))

example : parse_date_input "11 Oct 2026 at 23:15"
    = .ok ⟨2026, 10, 11, 23, 15⟩ := by decide
example : parse_date_input "garbage"
    = .error (.valueError "time data does not match format : garbage") := by decide


/-! ## Sleep/steps aggregation (`process_input_data`, `func.py` 117-181)

The JSON payload is a dict of parallel arrays.  `json.loads` and the
shape checks of `pd.DataFrame` are fallible: the already-parsed payload
is passed as an `Except PyErr RawInput`, whose `.error` case stands for
a `json.loads` failure or a payload without the expected columns. -/

/-- The raw payload after `json.loads`: the keys starting with `sleep` give
the three sleep columns, the keys starting with `steps` give the steps
column.  All values arrive as strings. -/
structure RawInput where
  sleep_start_date : List String
  sleep_end_date : List String
  sleep_label : List String
  steps_value : List String
  deriving DecidableEq, Repr

/-- One row of the sleep DataFrame after date parsing and the
`sleep_duration` computation: `duration` is
`(end - start).total_seconds() / 60`, i.e. minutes. -/
structure Sample where
  startDate : DateTime
  endDate : DateTime
  label : String
  duration : Rat
  deriving DecidableEq, Repr

/-- The five-key dict built at `func.py` lines 169-175.  `sleep_end_date`
is `none` when the column maximum is `NaT`. -/
structure CleanedData where
  total_daily_sleep : Rat
  last_night_sleep : Rat
  last_night_time_in_bed : Rat
  sleep_end_date : Option DateTime
  total_yesterday_steps : Int
  deriving DecidableEq, Repr

/-- Building the sleep DataFrame (`func.py` lines 126-138): the three
sleep columns must have equal length (else `pd.DataFrame` raises
`ValueError`), both date columns are parsed with the strict input
format, and the per-row duration in minutes is computed. -/
def parseSamples (raw : RawInput) : Except PyErr (List Sample) :=
  if raw.sleep_start_date.length = raw.sleep_end_date.length ∧
     raw.sleep_end_date.length = raw.sleep_label.length then
    (raw.sleep_start_date.zip (raw.sleep_end_date.zip raw.sleep_label)).mapM
      (fun p => do
        let sd ← parse_date_input p.fst
        let ed ← parse_date_input p.snd.fst
        Except.ok {
          startDate := sd
          endDate := ed
          label := p.snd.snd
          duration := ((minutesSinceEpoch ed - minutesSinceEpoch sd : Int) : Rat) })
  else .error (.valueError "All arrays must be of the same length")

/-- The "last night" selection (`func.py` lines 139-145): keep every
sample except those whose end has the same day-of-month as `yesterday`
(`.dt.day == yesterday.day`) and an end hour before 12. -/
def lastNightWindow (samples : List Sample) (yesterday : DateTime) : List Sample :=
  samples.filter (fun s =>
    !(s.endDate.day == yesterday.day && decide (s.endDate.hour < 12)))

/-- Sum of the `sleep_duration` column of a row selection. -/
def sumDurations (samples : List Sample) : Rat :=
  (samples.map (fun s => s.duration)).sum

/-- The label set of the `isin` selection at `func.py` line 148. -/
def sleepStageLabels : List String := ["REM", "Core", "Deep"]

/-- Steps column cast with `astype(int)` (`func.py` lines 165-167);
a non-integer entry raises `ValueError`. -/
def parseSteps (raw : RawInput) : Except PyErr (List Int) :=
  raw.steps_value.mapM (fun v =>
    match pyParseInt v with
    | some n => Except.ok n
    | none => Except.error (.valueError ("invalid literal for int : " ++ v)))

/-- The fallible body of the `try` block of `process_input_data`
(`func.py` lines 124-176), from parsed payload to the five-key dict. -/
def processCore (raw : RawInput) (yesterday : DateTime) : Except PyErr CleanedData := do
  let samples ← parseSamples raw
  let df_last_night := lastNightWindow samples yesterday
  let last_night_sleep :=
    sumDurations (df_last_night.filter (fun s => sleepStageLabels.contains s.label)) / 60
  let last_night_time_in_bed :=
    sumDurations (df_last_night.filter (fun s => s.label == "In Bed")) / 60
  let total_daily_sleep :=
    if last_night_sleep = 0 then last_night_time_in_bed else last_night_sleep
  let steps ← parseSteps raw
  Except.ok {
    total_daily_sleep := total_daily_sleep
    last_night_sleep := last_night_sleep
    last_night_time_in_bed := last_night_time_in_bed
    sleep_end_date := listMaxDT (df_last_night.map (fun s => s.endDate))
    total_yesterday_steps := steps.sum }

/-- Embedding of `process_input_data` (`func.py` lines 117-181): the
whole body sits in a `try` whose handler logs the exception and lets the
initial `cleaned_data = {}` be returned; `none` models that empty dict. -/
def process_input_data (parsed : Except PyErr RawInput) (yesterday : DateTime) :
    Option CleanedData :=
  match parsed.bind (fun raw => processCore raw yesterday) with
  | .ok c => some c
  | .error _ => none

/-! ## Recursive block-tree fetch (`get_children_rec`, `func.py` 93-114)

The Notion `blocks.children.list` endpoint is the environment
`env : String → List RawBlock`.  Python recursion depth is modelled with
fuel; exhausted fuel plays the role of the caught exception that makes
the function return the list accumulated so far. -/

/-- A child descriptor as returned by the listing endpoint: its `id`,
its `type` string and its `has_children` flag. -/
structure RawBlock where
  id : String
  type : String
  has_children : Bool
  deriving DecidableEq, Repr

/-- A block of the fetched tree.  `children = some l` models the
`children` key inserted into the type-specific sub-object
(`child[child["type"]]["children"] = ...`); `none` models the absence of
that key. -/
inductive Block where
  | mk (id : String) (type : String) (has_children : Bool)
       (children : Option (List Block))

/-- Identifier of a fetched block. -/
def Block.id : Block → String
  | .mk i _ _ _ => i

/-- Type string of a fetched block. -/
def Block.type : Block → String
  | .mk _ t _ _ => t

/-- The `has_children` flag of a fetched block. -/
def Block.hasChildren : Block → Bool
  | .mk _ _ h _ => h

/-- The recursively fetched children, when the `children` key was set. -/
def Block.children : Block → Option (List Block)
  | .mk _ _ _ c => c

/-- Embedding of `get_children_rec`: list the children of `page_id`; for
each child with `has_children` true whose type is not `synced_block`,
recurse and attach the result under the `children` key; every child is
appended to the output in order. -/
def get_children_rec (env : String → List RawBlock) : Nat → String → List Block
  | 0, _ => []
  | fuel + 1, page_id =>
    (env page_id).map (fun child =>
      Block.mk child.id child.type child.has_children
        (if child.has_children && !(child.type == "synced_block") then
          some (get_children_rec env fuel child.id)
        else none))

/-! ## Page writer (`update_yesterday_page` and `create_daily_page`)

The database query result and the create endpoint are environment
parameters; the write calls are represented by the request value they
would send. -/

/-- A page row of the database query result: its `id` and the string at
`properties -> Date -> date -> start`. -/
structure Page where
  id : String
  date_start : String
  deriving DecidableEq, Repr

/-- Parser for the page date strings handled by `pd.to_datetime` with no
explicit format: an ISO date `YYYY-MM-DD`, optionally followed by
`T` and a clock time whose hour and minute are kept. -/
def parse_timestamp (s : String) : Except PyErr DateTime :=
  let parseDatePart := fun (d : String) (hv mv : Nat) =>
    match splitOnChar '-' d with
    | [ys, ms, ds] =>
      (match digitsVal ys.data, digitsVal ms.data, digitsVal ds.data with
      | some y, some m, some dd =>
        if 1 ≤ m ∧ m ≤ 12 ∧ 1 ≤ dd ∧ dd ≤ daysInMonth (y : Int) m then
          .ok (⟨(y : Int), m, dd, hv, mv⟩ : DateTime)
        else .error (.valueError ("Unknown datetime string format : " ++ s))
      | _, _, _ => .error (.valueError ("Unknown datetime string format : " ++ s)))
    | _ => .error (.valueError ("Unknown datetime string format : " ++ s))
  match splitOnChar 'T' s with
  | [d] => parseDatePart d 0 0
  | [d, t] =>
    (match splitOnChar ':' t with
    | hh :: mm :: _ =>
      (match digitsVal hh.data, digitsVal mm.data with
      | some hv, some mv =>
        if hv ≤ 23 ∧ mv ≤ 59 then parseDatePart d hv mv
        else .error (.valueError ("Unknown datetime string format : " ++ s))
      | _, _ => .error (.valueError ("Unknown datetime string format : " ++ s)))
    | _ => .error (.valueError ("Unknown datetime string format : " ++ s)))
  | _ => .error (.valueError ("Unknown datetime string format : " ++ s))

/-- Decimal digits of a natural number. -/
def natDigits : Nat → Nat → List Char
  | 0, _ => []
  | fuel + 1, n =>
    if n < 10 then [Char.ofNat (48 + n)]
    else natDigits fuel (n / 10) ++ [Char.ofNat (48 + n % 10)]

/-- Decimal string of a natural number. -/
def natToStr (n : Nat) : String := String.mk (natDigits (n + 1) n)

/-- Two-digit zero-padded field (`%d`, `%m`, `%H`, `%M`). -/
def pad2 (n : Nat) : String := if n < 10 then "0" ++ natToStr n else natToStr n

/-- Full English month name (`%B`). -/
def monthFullName (m : Nat) : String :=
  match m with
  | 1 => "January" | 2 => "February" | 3 => "March" | 4 => "April"
  | 5 => "May" | 6 => "June" | 7 => "July" | 8 => "August"
  | 9 => "September" | 10 => "October" | 11 => "November" | 12 => "December"
  | _ => ""

/-- Formatting `strftime("%B %d, %Y")`, used for page titles and for the
yesterday lookup string. -/
def strftimeMonthDayYear (t : DateTime) : String :=
  monthFullName t.month ++ " " ++ pad2 t.day ++ ", " ++ natToStr t.year.toNat

/-- Formatting `strftime("%Y-%m-%d")`, used for the Date property. -/
def strftimeIsoDate (t : DateTime) : String :=
  natToStr t.year.toNat ++ "-" ++ pad2 t.month ++ "-" ++ pad2 t.day

/-- Inverse side of the pandas comparison `page_date == "Month DD, YYYY"`:
pandas parses the right-hand string to the midnight timestamp of that
date before comparing. -/
def parseMonthDayYear (s : String) : Option DateTime :=
  match splitOnChar ' ' s with
  | [mon, dc, ys] =>
    (match splitOnChar ',' dc with
    | [ds, e] =>
      if e = "" then
        match (List.range 12).find? (fun i => monthFullName (i + 1) == mon),
              digitsVal ds.data, digitsVal ys.data with
        | some i, some dd, some y =>
          if 1 ≤ dd ∧ dd ≤ daysInMonth (y : Int) (i + 1) then
            some ⟨(y : Int), i + 1, dd, 0, 0⟩
          else none
        | _, _, _ => none
      else none
    | _ => none)
  | _ => none

/-- The pandas equality test of a `Timestamp` column against a string:
the string is parsed and the timestamps compared exactly. -/
def pandasTsEq (d : DateTime) (s : String) : Bool :=
  match parseMonthDayYear s with
  | some t => d == t
  | none => false

/-- The property patch that `notion.pages.update` would send: the target
page id and the new value of the step-count number property. -/
structure PatchAction where
  page_id : String
  steps : Int
  deriving DecidableEq, Repr

/-- Embedding of `update_yesterday_page` (`func.py` lines 184-217): parse
the date property of every queried page, filter for the pages whose date
equals `yesterday.strftime("%B %d, %Y")`, take row 0 of the matches
(`IndexError` when there is none), read `total_yesterday_steps` from the
cleaned dict (`int(None)` raises `TypeError` when the dict is empty) and
issue the step-count patch.  The function body has no `try` handler, so
the result stays an `Except`: every error propagates to the caller. -/
def update_yesterday_page (pages : List Page) (dict_cleaned_data : Option CleanedData)
    (yesterday : DateTime) : Except PyErr PatchAction := do
  let dated ← pages.mapM (fun p => do
    let d ← parse_timestamp p.date_start
    Except.ok (p, d))
  let ystr := strftimeMonthDayYear yesterday
  match dated.filter (fun pd => pandasTsEq pd.snd ystr) with
  | [] => Except.error (.indexError "index 0 is out of bounds for axis 0 with size 0")
  | pd :: _ =>
    match dict_cleaned_data with
    | none => Except.error (.typeError "int argument must be a string or a number, not NoneType")
    | some c => Except.ok { page_id := pd.fst.id, steps := c.total_yesterday_steps }

/-- The create-page request that `notion.pages.create` would receive:
the Date property (`%Y-%m-%d` start, empty end), the Sleep number, the
title (`%B %d, %Y`), the fixed emoji icon and the fetched block tree. -/
structure CreateRequest where
  date_start : String
  sleep_number : Rat
  title : String
  icon : String
  children : List Block

/-- The fallible body of the `try` block of `create_daily_page`
(`func.py` lines 229-274): an empty cleaned dict raises `KeyError` at
`dict_cleaned_data["sleep_end_date"]`, a `NaT` date raises `ValueError`
at `strftime`, then the request is built and submitted to the create
endpoint `api`, whose answer carries the new page id. -/
def createCore (dict_cleaned_data : Option CleanedData) (children : List Block)
    (api : CreateRequest → Except PyErr String) : Except PyErr String := do
  let c ← match dict_cleaned_data with
    | none => Except.error (.keyError "sleep_end_date")
    | some c => Except.ok c
  let ed ← match c.sleep_end_date with
    | none => Except.error (.valueError "NaTType does not support strftime")
    | some d => Except.ok d
  api {
    date_start := strftimeIsoDate ed
    sleep_number := c.total_daily_sleep
    title := strftimeMonthDayYear ed
    icon := "✍🏻"
    children := children }

/-- Outcome of `create_daily_page`: either the logged id of the created
page, or the logged (and swallowed) exception. -/
inductive CreateResult where
  | created (id : String)
  | loggedError (e : PyErr)
  deriving DecidableEq, Repr

/-- Embedding of `create_daily_page` (`func.py` lines 220-277): the whole
body sits in a `try` whose handler logs the error; the function always
returns `None`, so its observable outcome is what was logged. -/
def create_daily_page (dict_cleaned_data : Option CleanedData) (children : List Block)
    (api : CreateRequest → Except PyErr String) : CreateResult :=
  match createCore dict_cleaned_data children api with
  | .ok i => .created i
  | .error e => .loggedError e

/-! ## Concrete fixtures used by witnesses and counterexamples -/

/-- The `datetime.now() - timedelta(days=1)` value of a run on the
morning of 2026-10-12. -/
def yesterdayOct11 : DateTime := ⟨2026, 10, 11, 7, 30⟩

/-- Payload with In Bed (120 min), REM (40 min) and Core (50 min)
samples all ending today (2026-10-12), and three step entries. -/
def rawEx1 : RawInput := {
  sleep_start_date := ["12 Oct 2026 at 05:00", "12 Oct 2026 at 05:00",
                       "12 Oct 2026 at 05:40"]
  sleep_end_date := ["12 Oct 2026 at 07:00", "12 Oct 2026 at 05:40",
                     "12 Oct 2026 at 06:30"]
  sleep_label := ["In Bed", "REM", "Core"]
  steps_value := ["100", "250", "50"] }

/-- Payload with only an In Bed sample (90 min) ending today: the
time-in-bed fallback case. -/
def rawEx2 : RawInput := {
  sleep_start_date := ["12 Oct 2026 at 05:30"]
  sleep_end_date := ["12 Oct 2026 at 07:00"]
  sleep_label := ["In Bed"]
  steps_value := ["0"] }

/-- Payload whose dates do not match the expected input format. -/
def rawBadEx : RawInput := {
  sleep_start_date := ["garbage"]
  sleep_end_date := ["garbage"]
  sleep_label := ["In Bed"]
  steps_value := [] }

/-- The rows of `rawEx1` after date parsing. -/
def samplesEx1 : List Sample :=
  [⟨⟨2026, 10, 12, 5, 0⟩, ⟨2026, 10, 12, 7, 0⟩, "In Bed", 120⟩,
   ⟨⟨2026, 10, 12, 5, 0⟩, ⟨2026, 10, 12, 5, 40⟩, "REM", 40⟩,
   ⟨⟨2026, 10, 12, 5, 40⟩, ⟨2026, 10, 12, 6, 30⟩, "Core", 50⟩]

/-- The rows of `rawEx2` after date parsing. -/
def samplesEx2 : List Sample :=
  [⟨⟨2026, 10, 12, 5, 30⟩, ⟨2026, 10, 12, 7, 0⟩, "In Bed", 90⟩]

/-- The cleaned dict computed from `rawEx1`. -/
def cEx1 : CleanedData :=
  ⟨3 / 2, 3 / 2, 2, some ⟨2026, 10, 12, 7, 0⟩, 400⟩

/-- The cleaned dict computed from `rawEx2`. -/
def cEx2 : CleanedData :=
  ⟨3 / 2, 0, 3 / 2, some ⟨2026, 10, 12, 7, 0⟩, 0⟩

/-- A sample ending on 2026-09-11 at 08:00: same day-of-month as
`yesterdayOct11` but one month earlier. -/
def sampleEndedSep11 : Sample :=
  ⟨⟨2026, 9, 11, 7, 0⟩, ⟨2026, 9, 11, 8, 0⟩, "In Bed", 60⟩

/-- A sample ending yesterday (2026-10-11) at 08:00. -/
def sampleEndedYesterday8 : Sample :=
  ⟨⟨2026, 10, 11, 7, 0⟩, ⟨2026, 10, 11, 8, 0⟩, "In Bed", 60⟩

/-- A sample ending today (2026-10-12) at 02:00. -/
def sampleEndedToday2 : Sample :=
  ⟨⟨2026, 10, 11, 23, 0⟩, ⟨2026, 10, 12, 2, 0⟩, "Core", 180⟩

/-- A block listing with a synced block and a paragraph under the root,
and one grandchild under the paragraph. -/
def envEx : String → List RawBlock := fun page_id =>
  if page_id = "root" then
    [⟨"b1", "synced_block", true⟩, ⟨"b2", "paragraph", true⟩]
  else if page_id = "b2" then [⟨"b3", "paragraph", false⟩]
  else []

/-- A database page dated yesterday. -/
def pageEx : Page := ⟨"page-42", "2026-10-11"⟩

/-- A create endpoint that always fails with a remote API error. -/
def apiFailEx : CreateRequest → Except PyErr String :=
  fun _ => .error (.apiError "API error")

/-- A create endpoint that always succeeds. -/
def apiOkEx : CreateRequest → Except PyErr String :=
  fun _ => .ok "page-123"

/-! ## Helper lemmas -/

/-- Reduction of `Except.bind` on a success value. -/
theorem exceptOkBind {ε α β : Type} (a : α) (f : α → Except ε β) :
    Except.bind (Except.ok a) f = f a := rfl

/-- Reduction of `Except.bind` on an error value. -/
theorem exceptErrorBind {ε α β : Type} (e : ε) (f : α → Except ε β) :
    Except.bind (Except.error e) f = Except.error e := rfl

/-- Reduction of monadic bind on a success value of `Except`. -/
theorem exceptMonadOkBind {ε α β : Type} (a : α) (f : α → Except ε β) :
    (Except.ok a : Except ε α) >>= f = f a := rfl

/-- Reduction of monadic bind on an error value of `Except`. -/
theorem exceptMonadErrorBind {ε α β : Type} (e : ε) (f : α → Except ε β) :
    (Except.error e : Except ε α) >>= f = Except.error e := rfl

/-- Evaluation of the aggregation pipeline on `rawEx1`. -/
theorem processEx1_eval :
    process_input_data (.ok rawEx1) yesterdayOct11 = some cEx1 := by
  have hs : parseSamples rawEx1 = .ok samplesEx1 := by decide
  have hw : lastNightWindow samplesEx1 yesterdayOct11 = samplesEx1 := by decide
  have hst : parseSteps rawEx1 = .ok [100, 250, 50] := by decide
  have hf1 : samplesEx1.filter (fun s => sleepStageLabels.contains s.label)
      = [⟨⟨2026,10,12,5,0⟩, ⟨2026,10,12,5,40⟩, "REM", 40⟩,
         ⟨⟨2026,10,12,5,40⟩, ⟨2026,10,12,6,30⟩, "Core", 50⟩] := by decide
  have hf2 : samplesEx1.filter (fun s => s.label == "In Bed")
      = [⟨⟨2026,10,12,5,0⟩, ⟨2026,10,12,7,0⟩, "In Bed", 120⟩] := by decide
  have hmax : listMaxDT (samplesEx1.map (fun s => s.endDate))
      = some ⟨2026,10,12,7,0⟩ := by decide
  simp only [process_input_data, processCore, hs, hw, hst, hf1, hf2, hmax,
    exceptOkBind, exceptMonadOkBind]
  norm_num [sumDurations, cEx1]

/-- Evaluation of the aggregation pipeline on `rawEx2` (the
time-in-bed fallback input). -/
theorem processEx2_eval :
    process_input_data (.ok rawEx2) yesterdayOct11 = some cEx2 := by
  have hs : parseSamples rawEx2 = .ok samplesEx2 := by decide
  have hw : lastNightWindow samplesEx2 yesterdayOct11 = samplesEx2 := by decide
  have hst : parseSteps rawEx2 = .ok [0] := by decide
  have hf1 : samplesEx2.filter (fun s => sleepStageLabels.contains s.label)
      = [] := by decide
  have hf2 : samplesEx2.filter (fun s => s.label == "In Bed")
      = samplesEx2 := by decide
  have hmax : listMaxDT (samplesEx2.map (fun s => s.endDate))
      = some ⟨2026,10,12,7,0⟩ := by decide
  simp only [process_input_data, processCore, hs, hw, hst, hf1, hf2, hmax,
    exceptOkBind, exceptMonadOkBind]
  norm_num [sumDurations, samplesEx2, cEx2]

/-! ## Claim theorems -/

/-- Reduction of functor map on a success value of `Except`. -/
theorem exceptMapOk {ε α β : Type} (f : α → β) (a : α) :
    (f <$> (Except.ok a : Except ε α)) = Except.ok (f a) := rfl

/-- Reduction of functor map on an error value of `Except`. -/
theorem exceptMapError {ε α β : Type} (f : α → β) (e : ε) :
    (f <$> (Except.error e : Except ε α)) = Except.error e := rfl

/-- C3 (code bug): the `H:MM:SS` and `M:SS` shapes convert to decimal
hours as specified (`"1:30:00"` gives 1.5 and `"45:00"` gives 0.75), but
the seconds-only shape does not: `"30"` raises `TypeError` instead of
returning `30/3600`, because the one-token branch executes
`seconds = parts`, binding the token list itself, and `int(...)` of a
list fails. -/
theorem convert_duration_seconds_only_bug :
    convert_duration_to_hours "1:30:00" = .ok (3 / 2) ∧
    convert_duration_to_hours "45:00" = .ok (3 / 4) ∧
    convert_duration_to_hours "30"
      = .error (.typeError "int argument must be a string, not list") ∧
    convert_duration_to_hours "30" ≠ .ok (30 / 3600) := by
  refine ⟨?_, ?_, by decide, by decide⟩
  · simp +decide [convert_duration_to_hours, splitOnChar, splitCharAux,
      pyIntOf, pyParseInt, digitsVal, pure, Except.pure,
      exceptMonadOkBind, exceptMapOk]
    norm_num
  · simp +decide [convert_duration_to_hours, splitOnChar, splitCharAux,
      pyIntOf, pyParseInt, digitsVal, pure, Except.pure,
      exceptMonadOkBind, exceptMapOk]
    norm_num

/-- C9: a duration string that splits on `:` into a number of tokens
other than 1, 2 or 3 makes `convert_duration_to_hours` raise the
format `ValueError` (the FormatError of the spec) rather than return a
value. -/
theorem convert_duration_bad_token_count (s : String)
    (h1 : (splitOnChar ':' s).length ≠ 1)
    (h2 : (splitOnChar ':' s).length ≠ 2)
    (h3 : (splitOnChar ':' s).length ≠ 3) :
    convert_duration_to_hours s
      = .error (.valueError "Duration format not recognized") := by
  unfold convert_duration_to_hours
  rcases hp : splitOnChar ':' s with _ | ⟨a, _ | ⟨b, _ | ⟨c, _ | ⟨d, e⟩⟩⟩⟩
  · rfl
  · exact absurd (by simp [hp]) h1
  · exact absurd (by simp [hp]) h2
  · exact absurd (by simp [hp]) h3
  · rfl

/-- Witness for C9 at the four-token example input. -/
theorem convert_duration_bad_token_count_witness :
    convert_duration_to_hours "1:2:3:4"
      = .error (.valueError "Duration format not recognized") :=
  convert_duration_bad_token_count "1:2:3:4" (by decide) (by decide) (by decide)

/-- C7: `process_input_data` never propagates an exception: whenever the
fallible pipeline (JSON parse followed by the processing core) raises,
the handler catches it and the caller receives the empty dict,
modelled by `none`. -/
theorem process_input_data_swallows (parsed : Except PyErr RawInput)
    (y : DateTime) (e : PyErr)
    (h : parsed.bind (fun raw => processCore raw y) = .error e) :
    process_input_data parsed y = none := by
  unfold process_input_data
  rw [h]

/-- Witness for C7: a payload whose dates are unparseable yields the
empty dict. -/
theorem process_input_data_swallows_witness :
    process_input_data (.ok rawBadEx) yesterdayOct11 = none :=
  process_input_data_swallows _ _
    (.valueError "time data does not match format : garbage") (by decide)

/-- C1: whenever processing succeeds, `last_night_sleep` is the summed
duration in minutes of the REM/Core/Deep samples of the last-night
window divided by 60, `last_night_time_in_bed` is the summed duration of
the In Bed samples divided by 60, and `total_daily_sleep` equals
`last_night_time_in_bed` when `last_night_sleep` is zero and
`last_night_sleep` otherwise. -/
theorem process_total_daily_sleep_rule (raw : RawInput) (y : DateTime)
    (samples : List Sample) (c : CleanedData)
    (hs : parseSamples raw = .ok samples)
    (hp : process_input_data (.ok raw) y = some c) :
    c.last_night_sleep =
      sumDurations ((lastNightWindow samples y).filter
        (fun s => sleepStageLabels.contains s.label)) / 60 ∧
    c.last_night_time_in_bed =
      sumDurations ((lastNightWindow samples y).filter
        (fun s => s.label == "In Bed")) / 60 ∧
    c.total_daily_sleep =
      (if c.last_night_sleep = 0 then c.last_night_time_in_bed
       else c.last_night_sleep) := by
  unfold process_input_data at hp
  rw [exceptOkBind] at hp
  unfold processCore at hp
  rw [hs, exceptMonadOkBind] at hp
  rcases hst : parseSteps raw with e | steps
  · rw [hst, exceptMonadErrorBind] at hp
    exact absurd hp (by simp)
  · rw [hst, exceptMonadOkBind] at hp
    simp only [Option.some.injEq] at hp
    subst hp
    exact ⟨rfl, rfl, rfl⟩

/-- Witness for C1: the non-zero sleep case on `rawEx1` and the
time-in-bed fallback case on `rawEx2`. -/
theorem process_total_daily_sleep_rule_witness :
    (cEx1.last_night_sleep =
      sumDurations ((lastNightWindow samplesEx1 yesterdayOct11).filter
        (fun s => sleepStageLabels.contains s.label)) / 60 ∧
     cEx1.last_night_time_in_bed =
      sumDurations ((lastNightWindow samplesEx1 yesterdayOct11).filter
        (fun s => s.label == "In Bed")) / 60 ∧
     cEx1.total_daily_sleep =
      (if cEx1.last_night_sleep = 0 then cEx1.last_night_time_in_bed
       else cEx1.last_night_sleep)) ∧
    (cEx2.last_night_sleep =
      sumDurations ((lastNightWindow samplesEx2 yesterdayOct11).filter
        (fun s => sleepStageLabels.contains s.label)) / 60 ∧
     cEx2.last_night_time_in_bed =
      sumDurations ((lastNightWindow samplesEx2 yesterdayOct11).filter
        (fun s => s.label == "In Bed")) / 60 ∧
     cEx2.total_daily_sleep =
      (if cEx2.last_night_sleep = 0 then cEx2.last_night_time_in_bed
       else cEx2.last_night_sleep)) :=
  ⟨process_total_daily_sleep_rule rawEx1 yesterdayOct11 samplesEx1 cEx1
      (by decide) processEx1_eval,
   process_total_daily_sleep_rule rawEx2 yesterdayOct11 samplesEx2 cEx2
      (by decide) processEx2_eval⟩

/-- C10: whenever processing succeeds, the result is the record with
exactly the five fields `total_daily_sleep`, `last_night_sleep`,
`last_night_time_in_bed`, `sleep_end_date` and `total_yesterday_steps`
(the `CleanedData` type); its `sleep_end_date` is the maximum end
timestamp of the retained last-night window and its
`total_yesterday_steps` the sum of the integer-cast `steps_value`
entries. -/
theorem process_result_fields (raw : RawInput) (y : DateTime)
    (samples : List Sample) (steps : List Int) (c : CleanedData)
    (hs : parseSamples raw = .ok samples)
    (hst : parseSteps raw = .ok steps)
    (hp : process_input_data (.ok raw) y = some c) :
    c.sleep_end_date =
      listMaxDT ((lastNightWindow samples y).map (fun s => s.endDate)) ∧
    c.total_yesterday_steps = steps.sum := by
  unfold process_input_data at hp
  rw [exceptOkBind] at hp
  unfold processCore at hp
  rw [hs, exceptMonadOkBind, hst, exceptMonadOkBind] at hp
  simp only [Option.some.injEq] at hp
  subst hp
  exact ⟨rfl, rfl⟩

/-- Witness for C10 on `rawEx1`. -/
theorem process_result_fields_witness :
    cEx1.sleep_end_date =
      listMaxDT ((lastNightWindow samplesEx1 yesterdayOct11).map
        (fun s => s.endDate)) ∧
    cEx1.total_yesterday_steps = ([100, 250, 50] : List Int).sum :=
  process_result_fields rawEx1 yesterdayOct11 samplesEx1 [100, 250, 50] cEx1
    (by decide) (by decide) processEx1_eval

/-- C2 counterexample: the code filters on day-of-month only, not on the
full calendar date.  A sample ending 2026-09-11 at 08:00 — one month
before `yesterdayOct11` (2026-10-11), so not on yesterday's calendar
date — is nonetheless excluded from the last-night window, because its
end shares yesterday's day-of-month (11) and its end hour (8) is
before 12. -/
theorem lastNightWindow_day_of_month_counterexample :
    sampleEndedSep11 ∉ lastNightWindow [sampleEndedSep11] yesterdayOct11 ∧
    ¬(sampleEndedSep11.endDate.year = yesterdayOct11.year ∧
      sampleEndedSep11.endDate.month = yesterdayOct11.month ∧
      sampleEndedSep11.endDate.day = yesterdayOct11.day) ∧
    sampleEndedSep11.endDate.hour < 12 := by decide

/-- C2 (amended): a sample is excluded from the last-night window if and
only if its end shares yesterday's DAY-OF-MONTH (the code compares
`.dt.day` only, not the full calendar date) and its end hour is before
12; equivalently, a sample is retained iff it is in the input and not of
that shape. -/
theorem lastNightWindow_mem (samples : List Sample) (y : DateTime)
    (s : Sample) :
    s ∈ lastNightWindow samples y ↔
      s ∈ samples ∧ ¬(s.endDate.day = y.day ∧ s.endDate.hour < 12) := by
  simp [lastNightWindow, List.mem_filter, not_and, Bool.not_eq_true',
    Bool.and_eq_false_iff, beq_eq_false_iff_ne, decide_eq_false_iff_not]
  tauto

/-- Witness for C2: with yesterday = 2026-10-11, a sample ending
yesterday at 08:00 is excluded and a sample ending today (2026-10-12) at
02:00 is retained. -/
theorem lastNightWindow_mem_witness :
    sampleEndedYesterday8 ∉
      lastNightWindow [sampleEndedYesterday8, sampleEndedToday2]
        yesterdayOct11 ∧
    sampleEndedToday2 ∈
      lastNightWindow [sampleEndedYesterday8, sampleEndedToday2]
        yesterdayOct11 := by
  constructor
  · rw [lastNightWindow_mem]
    decide
  · rw [lastNightWindow_mem]
    decide

/-- C6: for every child of a listing response, the fetched tree contains
a block with that child's id and type; when the child reports children
and is not a `synced_block`, its recursively fetched children are
attached under the `children` key; a `synced_block` child — even one
reporting children — and a child without children get no `children`
key. -/
theorem get_children_rec_children (env : String → List RawBlock)
    (fuel : Nat) (page_id : String) (child : RawBlock)
    (hc : child ∈ env page_id) :
    ∃ b ∈ get_children_rec env (fuel + 1) page_id,
      b.id = child.id ∧ b.type = child.type ∧
      ((child.has_children = true ∧ child.type ≠ "synced_block") →
        b.children = some (get_children_rec env fuel child.id)) ∧
      (child.type = "synced_block" → b.children = none) ∧
      (child.has_children = false → b.children = none) := by
  refine ⟨Block.mk child.id child.type child.has_children
      (if child.has_children && !(child.type == "synced_block") then
        some (get_children_rec env fuel child.id)
      else none),
    ?_, rfl, rfl, ?_, ?_, ?_⟩
  · exact List.mem_map_of_mem _ hc
  · rintro ⟨h1, h2⟩
    simp [Block.children, h1, h2]
  · intro h2
    simp [Block.children, h2]
  · intro h1
    simp [Block.children, h1]

/-- Witness for C6: under `envEx`, the synced child of the root is not
recursed into even though it reports children, while the paragraph
child gets its children attached. -/
theorem get_children_rec_children_witness :
    (∃ b ∈ get_children_rec envEx 2 "root",
      b.id = "b1" ∧ b.type = "synced_block" ∧
      ((true = true ∧ "synced_block" ≠ "synced_block") →
        b.children = some (get_children_rec envEx 1 "b1")) ∧
      ("synced_block" = "synced_block" → b.children = none) ∧
      (true = false → b.children = none)) ∧
    (∃ b ∈ get_children_rec envEx 2 "root",
      b.id = "b2" ∧ b.type = "paragraph" ∧
      ((true = true ∧ "paragraph" ≠ "synced_block") →
        b.children = some (get_children_rec envEx 1 "b2")) ∧
      ("paragraph" = "synced_block" → b.children = none) ∧
      (true = false → b.children = none)) :=
  ⟨get_children_rec_children envEx 1 "root" ⟨"b1", "synced_block", true⟩
      (by decide),
   get_children_rec_children envEx 1 "root" ⟨"b2", "paragraph", true⟩
      (by decide)⟩

/-- C8: `create_daily_page` catches every error of the page-creation
body (including a remote API error), turning it into a logged error that
is not propagated — its result type has no error case to re-raise — and
on success its observable outcome is the logged new page id. -/
theorem create_daily_page_outcomes (d : Option CleanedData)
    (children : List Block) (api : CreateRequest → Except PyErr String) :
    (∀ e, createCore d children api = .error e →
      create_daily_page d children api = .loggedError e) ∧
    (∀ i, createCore d children api = .ok i →
      create_daily_page d children api = .created i) := by
  constructor
  · intro e h
    unfold create_daily_page
    rw [h]
  · intro i h
    unfold create_daily_page
    rw [h]

/-- Witness for C8: a failing create endpoint is logged and swallowed; a
succeeding one logs the new page id. -/
theorem create_daily_page_outcomes_witness :
    create_daily_page (some cEx1) [] apiFailEx
      = .loggedError (.apiError "API error") ∧
    create_daily_page (some cEx1) [] apiOkEx = .created "page-123" :=
  ⟨(create_daily_page_outcomes (some cEx1) [] apiFailEx).1 _ (by decide),
   (create_daily_page_outcomes (some cEx1) [] apiOkEx).2 _ (by decide)⟩

/-- C4: when, among the queried pages, exactly one page's date property
equals yesterday's date formatted as `Month DD, YYYY` (under the pandas
timestamp comparison), the update operation issues the step-count patch
for exactly that page, carrying the summary's step total. -/
theorem update_yesterday_page_patches (pages : List Page) (c : CleanedData)
    (y : DateTime) (dated : List (Page × DateTime)) (p : Page) (d : DateTime)
    (hparse : pages.mapM (fun p => do
        let d ← parse_timestamp p.date_start
        Except.ok (p, d)) = .ok dated)
    (hmatch : dated.filter
        (fun pd => pandasTsEq pd.snd (strftimeMonthDayYear y)) = [(p, d)]) :
    update_yesterday_page pages (some c) y
      = .ok { page_id := p.id, steps := c.total_yesterday_steps } := by
  unfold update_yesterday_page
  rw [hparse, exceptMonadOkBind]
  simp only [hmatch]

/-- Witness for C4: a single page dated 2026-10-11 is patched with the
step total of `cEx1`. -/
theorem update_yesterday_page_patches_witness :
    update_yesterday_page [pageEx] (some cEx1) yesterdayOct11
      = .ok { page_id := "page-42", steps := 400 } :=
  update_yesterday_page_patches [pageEx] cEx1 yesterdayOct11
    [(pageEx, ⟨2026, 10, 11, 0, 0⟩)] pageEx ⟨2026, 10, 11, 0, 0⟩
    (by decide) (by decide)

/-- C5: the update operation is unguarded: when no queried page matches
yesterday's formatted date, row 0 of the empty match set raises an
`IndexError` that the function does not catch — its result is the error
itself, propagated to the caller (by contrast, `process_input_data` and
`create_daily_page` return non-error values on failure). -/
theorem update_yesterday_page_unguarded (pages : List Page)
    (d : Option CleanedData) (y : DateTime) (dated : List (Page × DateTime))
    (hparse : pages.mapM (fun p => do
        let dt ← parse_timestamp p.date_start
        Except.ok (p, dt)) = .ok dated)
    (hnone : dated.filter
        (fun pd => pandasTsEq pd.snd (strftimeMonthDayYear y)) = []) :
    update_yesterday_page pages d y
      = .error (.indexError "index 0 is out of bounds for axis 0 with size 0") := by
  unfold update_yesterday_page
  rw [hparse, exceptMonadOkBind]
  simp only [hnone]

/-- Witness for C5: an empty query result makes the update raise. -/
theorem update_yesterday_page_unguarded_witness :
    update_yesterday_page [] (some cEx1) yesterdayOct11
      = .error (.indexError "index 0 is out of bounds for axis 0 with size 0") :=
  update_yesterday_page_unguarded [] (some cEx1) yesterdayOct11 []
    (by decide) (by decide)
